import Mathlib

/-!
# sdns configuration bootstrap (`config.go`)

A shallow embedding of `LoadConfig` and `generateConfig` together with the
default configuration template, and the properties of the load / generate /
version-check sequence.

Layout of the development:

* the formatting helper (`fmt.Sprintf`, `fmt.Errorf`) restricted to string operands;
* the `config` record and the `defaultConfig` template;
* the operating system as seen by the loader (`os.Stat`, `os.Create`, `io.Copy`,
  reading a file), the logger, and the decoder interface;
* `generateConfig` and `LoadConfig`;
* the fragment of the TOML format used by the template, as a decoder;
* the theorems.
-/

namespace Sdns

/-! ## Formatting -/

/-- Operands left over once the format string is exhausted, as `fmt` prints them. -/
def extraOperands : List String → List Char
  | [] => []
  | [a] => "string=".data ++ a.data
  | a :: b :: rest => "string=".data ++ a.data ++ ", ".data ++ extraOperands (b :: rest)

/-- What a verb prints for the next operand, if there is one: `%s` and `%v` print a
string as it is, any other verb is reported as a bad verb for a string operand, and a
verb without an operand is reported as missing. -/
def printVerb (verb : Char) : Option String → List Char
  | none => "%!".data ++ [verb] ++ "(MISSING)".data
  | some a =>
    if verb = 's' ∨ verb = 'v' then a.data
    else "%!".data ++ [verb] ++ "(string=".data ++ a.data ++ [')']

/-- The report on left-over operands at the end of the format. -/
def printExtra : List String → List Char
  | [] => []
  | a :: rest => "%!(EXTRA ".data ++ extraOperands (a :: rest) ++ [')']

/-- The formatting loop of `fmt.Sprintf` over string operands; `pending` tells that the
previous character was the `%` opening a verb.  `%%` prints a percent sign, a `%` at the
very end is reported as lacking a verb.  Flags, widths and precisions are not covered. -/
def sprintfAux (pending : Bool) : List Char → List String → List Char
  | [], args => (if pending then "%!(NOVERB)".data else []) ++ printExtra args
  | c :: fs, args =>
    if pending then
      if c = '%' then '%' :: sprintfAux false fs args
      else printVerb c args.head? ++ sprintfAux false fs args.tail
    else if c = '%' then sprintfAux true fs args
    else c :: sprintfAux false fs args

/-- The Go call `fmt.Sprintf(format, args...)` for string operands. -/
def Sprintf (format : String) (args : List String) : String :=
  ⟨sprintfAux false format.data args⟩

/-- The Go call `fmt.Errorf(format, args...)`: the error is represented by its message. -/
def Errorf (format : String) (args : List String) : String :=
  Sprintf format args

/-! ## Versions and the configuration record -/

/-- The build version of sdns. -/
def BuildVersion : String := "2.0.4"

/-- The configuration version shipped with the source.  It is a package variable in the
source, so the operations below take the expected version as an argument. -/
def ConfigVersion : String := "2.0.4"

/-- The Go struct `config`.  Slices are lists (a nil slice and an empty slice are both
the empty list), `int` fields are integers and the `uint32` field is a natural number. -/
structure config where
  Version : String
  Sources : List String
  SourceDirs : List String
  RootServers : List String
  RootKeys : List String
  Log : String
  LogLevel : String
  Bind : String
  API : String
  Nullroute : String
  Nullroutev6 : String
  OutboundIP : String
  Interval : Int
  Timeout : Int
  ConnectTimeout : Int
  Expire : Nat
  Maxcount : Int
  Maxdepth : Int
  RateLimit : Int
  Blocklist : List String
  Whitelist : List String
deriving DecidableEq, Repr

/-- The zero value of `config`, which is what the package variable `Config` holds when the
process starts. -/
def config.zero : config where
  Version := ""
  Sources := []
  SourceDirs := []
  RootServers := []
  RootKeys := []
  Log := ""
  LogLevel := ""
  Bind := ""
  API := ""
  Nullroute := ""
  Nullroutev6 := ""
  OutboundIP := ""
  Interval := 0
  Timeout := 0
  ConnectTimeout := 0
  Expire := 0
  Maxcount := 0
  Maxdepth := 0
  RateLimit := 0
  Blocklist := []
  Whitelist := []

/-- The lines of the raw string `defaultConfig`, each with its line break. -/
def defaultConfigLines : List String := [
  "# version this config was generated from\n",
  "version = \"%s\"\n",
  "\n",
  "# list of sources to pull blocklists from, stores them in ./sources\n",
  "sources = [\n",
  "\"http://mirror1.malwaredomains.com/files/justdomains\",\n",
  "\"https://raw.githubusercontent.com/StevenBlack/hosts/master/hosts\",\n",
  "\"http://sysctl.org/cameleon/hosts\",\n",
  "\"https://zeustracker.abuse.ch/blocklist.php?download=domainblocklist\",\n",
  "\"https://s3.amazonaws.com/lists.disconnect.me/simple_tracking.txt\",\n",
  "\"https://s3.amazonaws.com/lists.disconnect.me/simple_ad.txt\",\n",
  "\"http://hosts-file.net/ad_servers.txt\",\n",
  "\"https://raw.githubusercontent.com/quidsup/notrack/master/trackers.txt\"\n",
  "]\n",
  "\n",
  "# list of locations to recursively read blocklists from (warning, every file found is assumed to be a hosts-file or domain list)\n",
  "sourcedirs = [\n",
  "\"sources\"\n",
  "]\n",
  "\n",
  "# what kind of information should be logged, Log verbosity level [crit,error,warn,info,debug]\n",
  "loglevel = \"info\"\n",
  "\n",
  "# address to bind to for the DNS server\n",
  "bind = \"0.0.0.0:53\"\n",
  "\n",
  "# outbound ip address\n",
  "#outboundip = \"\"\n",
  "\n",
  "# root servers\n",
  "rootservers = [\n",
  "\t\"198.41.0.4:53\",\n",
  "\t\"192.228.79.201:53\",\n",
  "\t\"192.33.4.12:53\",\n",
  "\t\"199.7.91.13:53\",\n",
  "\t\"192.203.230.10:53\",\n",
  "\t\"192.5.5.241:53\",\n",
  "\t\"192.112.36.4:53\",\n",
  "\t\"128.63.2.53:53\",\n",
  "\t\"192.36.148.17:53\",\n",
  "\t\"192.58.128.30:53\",\n",
  "\t\"193.0.14.129:53\",\n",
  "\t\"199.7.83.42:53\",\n",
  "\t\"202.12.27.33:53\"\n",
  "]\n",
  "\n",
  "# root keys\n",
  "rootkeys = [\n",
  "\t\".\t\t\t172800\tIN\tDNSKEY\t257 3 8 AwEAAagAIKlVZrpC6Ia7gEzahOR+9W29euxhJhVVLOyQbSEW0O8gcCjFFVQUTf6v58fLjwBd0YI0EzrAcQqBGCzh/RStIoO8g0NfnfL2MTJRkxoXbfDaUeVPQuYEhg37NZWAJQ9VnMVDxP/VHL496M/QZxkjf5/Efucp2gaDX6RS6CXpoY68LsvPVjR0ZSwzz1apAzvN9dlzEheX7ICJBBtuA6G3LQpzW5hOA2hzCTMjJPJ8LbqF6dsV6DoBQzgul0sGIcGOYl7OyQdXfZ57relSQageu+ipAdTTJ25AsRTAoub8ONGcLmqrAmRLKBP1dfwhYB4N7knNnulqQxA+Uk1ihz0=\",\n",
  "\t\".\t\t\t172800\tIN\tDNSKEY\t256 3 8 AwEAAdp440E6Mz7c+Vl4sPd0lTv2Qnc85dTW64j0RDD7sS/zwxWDJ3QRES2VKDO0OXLMqVJSs2YCCSDKuZXpDPuf++YfAu0j7lzYYdWTGwyNZhEaXtMQJIKYB96pW6cRkiG2Dn8S2vvo/PxW9PKQsyLbtd8PcwWglHgReBVp7kEv/Dd+3b3YMukt4jnWgDUddAySg558Zld+c9eGWkgWoOiuhg4rQRkFstMX1pRyOSHcZuH38o1WcsT4y3eT0U/SR6TOSLIB/8Ftirux/h297oS7tCcwSPt0wwry5OFNTlfMo8v7WGurogfk8hPipf7TTKHIi20LWen5RCsvYsQBkYGpF78=\"\n",
  "]\n",
  "\n",
  "# address to bind to for the API server\n",
  "api = \"127.0.0.1:8080\"\n",
  "\n",
  "# ipv4 address to forward blocked queries to\n",
  "nullroute = \"0.0.0.0\"\n",
  "\n",
  "# ipv6 address to forward blocked queries to\n",
  "nullroutev6 = \"0:0:0:0:0:0:0:0\"\n",
  "\n",
  "# concurrency interval for lookups in miliseconds\n",
  "interval = 200\n",
  "\n",
  "# query timeout for dns lookups in seconds\n",
  "timeout = 5\n",
  "\n",
  "# connect timeout for dns lookups in seconds\n",
  "connecttimeout = 2\n",
  "\n",
  "# cache entry lifespan in seconds\n",
  "expire = 600\n",
  "\n",
  "# cache capacity, 0 for infinite\n",
  "maxcount = 0\n",
  "\n",
  "# maximum recursion depth for nameservers\n",
  "maxdepth = 30\n",
  "\n",
  "# query based ratelimit per second, 0 for disable\n",
  "ratelimit = 0\n",
  "\n",
  "# manual blocklist entries\n",
  "blocklist = []\n",
  "\n",
  "# manual whitelist entries\n",
  "whitelist = [\n",
  "\t\"getsentry.com\",\n",
  "\t\"www.getsentry.com\"\n",
  "]\n"
]

/-- The template `defaultConfig`: the lines above one after the other, a format string
with one `%s` for the version. -/
def defaultConfig : String := defaultConfigLines.foldr (· ++ ·) ""

/-! ## The operating system, the logger and the decoder -/

/-- The regular files of the file system: the content stored at each path, if any. -/
abbrev Files := String → Option String

/-- Modelled from the spec: the operating system (stat, create, write, read, resolution of
a path to its absolute form) is outside the sources.  This is how it answers the calls of
the loader, apart from the files themselves: the error (if any) it reports for each path
on `stat`, on `create`, while writing (after how many characters, and with which error),
on reading, and the absolute form of a path (none when `filepath.Abs` fails). -/
structure Env where
  statFault : String → Option String
  createFault : String → Option String
  writeFault : String → Option (Nat × String)
  readFault : String → Option String
  abs : String → Option String

/-- An environment in which no call fails and `filepath.Abs` resolves against `/`. -/
def Env.sound : Env where
  statFault := fun _ => none
  createFault := fun _ => none
  writeFault := fun _ => none
  readFault := fun _ => none
  abs := fun p => some ("/" ++ p)

/-- The error result of `os.Stat`. -/
inductive StatResult where
  | ok
  | errNotExist
  | errOther (msg : String)
deriving DecidableEq, Repr

/-- The call `os.Stat(path)`, reduced to its error. -/
def Stat (env : Env) (files : Files) (path : String) : StatResult :=
  match env.statFault path with
  | some e => .errOther e
  | none =>
    match files path with
    | none => .errNotExist
    | some _ => .ok

/-- The test `os.IsNotExist(err)`. -/
def IsNotExist : StatResult → Bool
  | .errNotExist => true
  | _ => false

/-- Storing `content` at `path`. -/
def Files.write (files : Files) (path : String) (content : String) : Files :=
  fun q => if q = path then some content else files q

/-- The call `os.Create(path)`: the file is created, or truncated, unless the system
refuses. -/
def Create (env : Env) (files : Files) (path : String) : Except String Files :=
  match env.createFault path with
  | some e => .error e
  | none => .ok (files.write path "")

/-- The call `io.Copy(output, r)` into the file just created at `path`: everything is
written, or the write stops with an error after some characters. -/
def Copy (env : Env) (files : Files) (path : String) (r : String) : Files × Option String :=
  match env.writeFault path with
  | some (n, e) => (files.write path ⟨r.data.take n⟩, some e)
  | none => (files.write path r, none)

/-- Reading the whole file at `path`, as the decoder does before parsing. -/
def ReadFile (env : Env) (files : Files) (path : String) : Except String String :=
  match env.readFault path with
  | some e => .error e
  | none =>
    match files path with
    | none => .error ("open " ++ path ++ ": no such file or directory")
    | some data => .ok data

/-- A line written to the logger. -/
inductive LogEntry where
  | Info (msg : String) (ctx : List (String × String))
  | Warn (msg : String)
deriving DecidableEq, Repr

/-- The warning of `LoadConfig`. -/
def outOfDate : LogEntry := .Warn "Config file sdns.toml is out of date!"

/-- Modelled from the spec: the decoder is the library behind `toml.Decode(data, &v)`,
outside the sources, so the loader takes it as a parameter.  From the text and the current
value of the target it gives the value the target is left with, and the error if there is
one. -/
structure Decoder where
  Decode : String → config → config × Option String

/-- The call `toml.DecodeFile(path, &v)`: read the file, then decode its text into the
target.  A file that cannot be read leaves the target as it is. -/
def DecodeFile (d : Decoder) (env : Env) (files : Files) (path : String) (v : config) :
    config × Option String :=
  match ReadFile env files path with
  | .error e => (v, some e)
  | .ok data => d.Decode data v

/-- The state the loader works on: the files, the package variable `Config`, and the
lines logged so far (oldest first). -/
structure State where
  files : Files
  Config : config
  log : List LogEntry

/-! ## The loader -/

/-- The function `generateConfig`. -/
def generateConfig (env : Env) (ConfigVersion : String) (path : String) (s : State) :
    Option String × State :=
  match Create env s.files path with
  | .error err => (some (Errorf "could not generate config: %s" [err]), s)
  | .ok output =>
    let r := Sprintf defaultConfig [ConfigVersion]
    match Copy env output path r with
    | (written, some err) =>
      (some (Errorf "could not copy default config: %s" [err]), { s with files := written })
    | (written, none) =>
      match env.abs path with
      | some abs =>
        (none, { s with
          files := written
          log := s.log ++ [.Info "Default config file generated" [("config", abs)]] })
      | none => (none, { s with files := written })

/-- The first statement of `LoadConfig`: when `os.Stat` reports that the file does not
exist, the default file is generated.  The first component is the error of
`generateConfig`, if it was called and failed. -/
def ensureExists (env : Env) (ConfigVersion : String) (path : String) (s : State) :
    Option String × State :=
  if IsNotExist (Stat env s.files path) then generateConfig env ConfigVersion path s
  else (none, s)

/-- The function `LoadConfig`: the returned error (none for nil) and the state after the
call. -/
def LoadConfig (d : Decoder) (env : Env) (ConfigVersion : String) (path : String)
    (s : State) : Option String × State :=
  match ensureExists env ConfigVersion path s with
  | (some err, s1) => (some err, s1)
  | (none, s1) =>
    match DecodeFile d env s1.files path s1.Config with
    | (c, some err) =>
      (some (Errorf "could not load config: %s" [err]), { s1 with Config := c })
    | (c, none) =>
      let s2 : State := { s1 with Config := c }
      if s2.Config.Version ≠ ConfigVersion then
        let s3 : State :=
          if s2.Config.Version = "" then
            { s2 with Config := { s2.Config with Version := "none" } }
          else s2
        (none, { s3 with log := s3.log ++ [outOfDate] })
      else (none, s2)

/-! ## The decoder on the fragment of TOML used by the template

The configuration file is a TOML document.  The definitions of this section describe the
decoder on the part of the format the default template is written in: comments, bare
keys, basic strings with the short escapes, decimal integers, and arrays of basic strings
that may span lines.  Tables, quoted keys, multi-line and literal strings, floats, dates,
booleans and the `\u` escapes are outside this fragment and are reported as errors here.
-/

namespace Toml

/-- A decoded value of the fragment: a basic string, an integer, or an array of basic
strings. -/
inductive Value where
  | string (s : String)
  | integer (n : Int)
  | strings (xs : List String)
deriving DecidableEq, Repr

/-- Space or tab. -/
def isWhitespace (c : Char) : Bool := c = ' ' || c = '\t'

/-- Line feed or carriage return. -/
def isNL (c : Char) : Bool := c = '\n' || c = '\r'

/-- A character of a bare key: an ASCII letter or digit, `_` or `-`. -/
def isBareKeyChar (c : Char) : Bool := c.isAlphanum || c = '_' || c = '-'

/-- A control character that may not stand in a basic string (tab may). -/
def isControl (c : Char) : Bool := (c.toNat < 0x20 && c ≠ '\t') || c.toNat = 0x7f

/-- Where the lexer stands.  Accumulators of characters and of array items are kept in
reverse. -/
inductive Mode where
  | top
  | comment
  | key (acc : List Char)
  | afterKey (k : String)
  | beforeValue (k : String)
  | strOpen (k : String) (arr : Option (List String))
  | strEmpty (k : String) (arr : Option (List String))
  | str (k : String) (arr : Option (List String)) (acc : List Char)
  | strEsc (k : String) (arr : Option (List String)) (acc : List Char)
  | int (k : String) (neg : Bool) (digits : List Char)
  | afterValue
  | arrElem (k : String) (items : List String)
  | arrAfter (k : String) (items : List String)
  | arrComment (k : String) (items : List String) (after : Bool)
deriving DecidableEq, Repr

deriving instance DecidableEq for Except

/-- The result of reading one character: the next mode and the key/value pairs completed
by that character. -/
abbrev Step := Except String (Mode × List (String × Value))

/-- After a key: blanks, then `=`. -/
def afterKeyStep (k : String) (c : Char) : Step :=
  if isWhitespace c then .ok (.afterKey k, [])
  else if c = '=' then .ok (.beforeValue k, [])
  else .error "expected key separator '='"

/-- After a top-level value: blanks, a comment, or the end of the line. -/
def afterValueStep (c : Char) (out : List (String × Value)) : Step :=
  if isWhitespace c then .ok (.afterValue, out)
  else if c = '#' then .ok (.comment, out)
  else if isNL c then .ok (.top, out)
  else .error "expected a top-level item to end with a newline, comment, or EOF"

/-- After an array item: blanks and comments, then `,` or `]`. -/
def arrAfterStep (k : String) (items : List String) (c : Char) : Step :=
  if isWhitespace c || isNL c then .ok (.arrAfter k items, [])
  else if c = '#' then .ok (.arrComment k items true, [])
  else if c = ',' then .ok (.arrElem k items, [])
  else if c = ']' then .ok (.afterValue, [(k, .strings items.reverse)])
  else .error "expected a comma or array terminator ']'"

/-- The first character of a value, at top level (`arr` is none) or inside an array. -/
def valueStart (k : String) (arr : Option (List String)) (c : Char) : Step :=
  if c = '"' then .ok (.strOpen k arr, [])
  else
    match arr with
    | some _ => .error "array items other than basic strings are outside the fragment"
    | none =>
      if c = '[' then .ok (.arrElem k [], [])
      else if c = '+' || c = '-' then .ok (.int k (c = '-') [], [])
      else if c.isDigit then .ok (.int k false [c], [])
      else .error "expected a basic string, an integer or an array"

/-- A basic string is complete. -/
def closeStr (k : String) (arr : Option (List String)) (s : String) :
    Mode × List (String × Value) :=
  match arr with
  | none => (.afterValue, [(k, .string s)])
  | some items => (.arrAfter k (s :: items), [])

/-- A character inside a basic string. -/
def strStep (k : String) (arr : Option (List String)) (acc : List Char) (c : Char) : Step :=
  if c = '"' then .ok (closeStr k arr ⟨acc.reverse⟩)
  else if c = '\\' then .ok (.strEsc k arr acc, [])
  else if isNL c then .error "strings cannot contain newlines"
  else if isControl c then .error "control characters are not allowed inside strings"
  else .ok (.str k arr (c :: acc), [])

/-- The character an escape sequence stands for (the `\u` forms are outside the
fragment). -/
def unescape (c : Char) : Option Char :=
  if c = 'b' then some '\x08'
  else if c = 't' then some '\t'
  else if c = 'n' then some '\n'
  else if c = 'f' then some '\x0c'
  else if c = 'r' then some '\r'
  else if c = '"' then some '"'
  else if c = '\\' then some '\\'
  else none

/-- The value of a run of decimal digits given in reverse. -/
def digitsValue : List Char → Nat
  | [] => 0
  | c :: cs => (c.toNat - '0'.toNat) + 10 * digitsValue cs

/-- An integer literal is complete: it must have a digit and fit 64 bits. -/
def closeInt (k : String) (neg : Bool) (digits : List Char) :
    Except String (List (String × Value)) :=
  if digits = [] then .error "expected a digit"
  else
    let n : Int := if neg then -(digitsValue digits : Int) else (digitsValue digits : Int)
    if -(2 : Int) ^ 63 ≤ n ∧ n < (2 : Int) ^ 63 then .ok [(k, .integer n)]
    else .error "integer is out of the range of 64-bit signed integers"

/-- One step of the lexer. -/
def step (m : Mode) (c : Char) : Step :=
  match m with
  | .top =>
    if isWhitespace c || isNL c then .ok (.top, [])
    else if c = '#' then .ok (.comment, [])
    else if isBareKeyChar c then .ok (.key [c], [])
    else .error "tables and quoted keys are outside the fragment"
  | .comment => if isNL c then .ok (.top, []) else .ok (.comment, [])
  | .key acc =>
    if isBareKeyChar c then .ok (.key (c :: acc), [])
    else afterKeyStep ⟨acc.reverse⟩ c
  | .afterKey k => afterKeyStep k c
  | .beforeValue k =>
    if isWhitespace c then .ok (.beforeValue k, [])
    else valueStart k none c
  | .strOpen k arr =>
    if c = '"' then .ok (.strEmpty k arr, [])
    else strStep k arr [] c
  | .strEmpty k arr =>
    if c = '"' then .error "multi-line strings are outside the fragment"
    else
      match arr with
      | none => afterValueStep c [(k, .string "")]
      | some items => arrAfterStep k ("" :: items) c
  | .str k arr acc => strStep k arr acc c
  | .strEsc k arr acc =>
    match unescape c with
    | some e => .ok (.str k arr (e :: acc), [])
    | none => .error "invalid escape in string"
  | .int k neg digits =>
    if c.isDigit then .ok (.int k neg (c :: digits), [])
    else
      match closeInt k neg digits with
      | .error e => .error e
      | .ok out => afterValueStep c out
  | .afterValue => afterValueStep c []
  | .arrElem k items =>
    if isWhitespace c || isNL c then .ok (.arrElem k items, [])
    else if c = '#' then .ok (.arrComment k items false, [])
    else if c = ']' then .ok (.afterValue, [(k, .strings items.reverse)])
    else if c = ',' then .error "unexpected comma"
    else valueStart k (some items) c
  | .arrAfter k items => arrAfterStep k items c
  | .arrComment k items after =>
    if isNL c then .ok (if after then .arrAfter k items else .arrElem k items, [])
    else .ok (.arrComment k items after, [])

/-- The end of the text. -/
def atEOF : Mode → Except String (List (String × Value))
  | .top => .ok []
  | .comment => .ok []
  | .afterValue => .ok []
  | .int k neg digits => closeInt k neg digits
  | .strEmpty k none => .ok [(k, .string "")]
  | _ => .error "unexpected EOF"

/-- The key/value pairs of the text from a given mode on, in the order of the text. -/
def parseFrom : Mode → List Char → Except String (List (String × Value))
  | m, [] => atEOF m
  | m, c :: cs =>
    match step m c with
    | .error e => .error e
    | .ok (m', out) =>
      match parseFrom m' cs with
      | .error e => .error e
      | .ok kvs => .ok (out ++ kvs)

/-- The first key that occurs twice. -/
def firstDuplicate : List String → Option String
  | [] => none
  | k :: ks => if k ∈ ks then some k else firstDuplicate ks

/-- Parsing: the key/value pairs of a document, which may not define a key twice. -/
def parse (data : String) : Except String (List (String × Value)) :=
  match parseFrom .top data.data with
  | .error e => .error e
  | .ok kvs =>
    match firstDuplicate (kvs.map Prod.fst) with
    | some k => .error ("Key '" ++ k ++ "' has already been defined.")
    | none => .ok kvs

/-- The fields of `config`. -/
inductive Field where
  | Version | Sources | SourceDirs | RootServers | RootKeys | Log | LogLevel | Bind | API
  | Nullroute | Nullroutev6 | OutboundIP | Interval | Timeout | ConnectTimeout | Expire
  | Maxcount | Maxdepth | RateLimit | Blocklist | Whitelist
deriving DecidableEq, Repr

/-- The Go names of the fields. -/
def fieldNames : List (String × Field) := [
  ("Version", .Version), ("Sources", .Sources), ("SourceDirs", .SourceDirs),
  ("RootServers", .RootServers), ("RootKeys", .RootKeys), ("Log", .Log),
  ("LogLevel", .LogLevel), ("Bind", .Bind), ("API", .API), ("Nullroute", .Nullroute),
  ("Nullroutev6", .Nullroutev6), ("OutboundIP", .OutboundIP), ("Interval", .Interval),
  ("Timeout", .Timeout), ("ConnectTimeout", .ConnectTimeout), ("Expire", .Expire),
  ("Maxcount", .Maxcount), ("Maxdepth", .Maxdepth), ("RateLimit", .RateLimit),
  ("Blocklist", .Blocklist), ("Whitelist", .Whitelist)]

/-- Equality of two names up to the case of ASCII letters. -/
def EqualFold (a b : String) : Bool :=
  a.data.map Char.toLower = b.data.map Char.toLower

/-- The field a key decodes into: the one of that name, else the one whose name differs
only in case; none for an unknown key. -/
def findField (key : String) : Option Field :=
  match fieldNames.find? (fun p => p.1 = key) with
  | some p => some p.2
  | none =>
    match fieldNames.find? (fun p => EqualFold p.1 key) with
    | some p => some p.2
    | none => none

/-- Storing a decoded value into a field; a value of the wrong type, or an integer that
does not fit the field, is an error. -/
def assign (f : Field) (v : Value) (c : config) : Except String config :=
  match f, v with
  | .Version, .string s => .ok { c with Version := s }
  | .Sources, .strings xs => .ok { c with Sources := xs }
  | .SourceDirs, .strings xs => .ok { c with SourceDirs := xs }
  | .RootServers, .strings xs => .ok { c with RootServers := xs }
  | .RootKeys, .strings xs => .ok { c with RootKeys := xs }
  | .Log, .string s => .ok { c with Log := s }
  | .LogLevel, .string s => .ok { c with LogLevel := s }
  | .Bind, .string s => .ok { c with Bind := s }
  | .API, .string s => .ok { c with API := s }
  | .Nullroute, .string s => .ok { c with Nullroute := s }
  | .Nullroutev6, .string s => .ok { c with Nullroutev6 := s }
  | .OutboundIP, .string s => .ok { c with OutboundIP := s }
  | .Interval, .integer n => .ok { c with Interval := n }
  | .Timeout, .integer n => .ok { c with Timeout := n }
  | .ConnectTimeout, .integer n => .ok { c with ConnectTimeout := n }
  | .Expire, .integer n =>
    if 0 ≤ n ∧ n < (2 : Int) ^ 32 then .ok { c with Expire := n.toNat }
    else .error "value is out of range for uint32"
  | .Maxcount, .integer n => .ok { c with Maxcount := n }
  | .Maxdepth, .integer n => .ok { c with Maxdepth := n }
  | .RateLimit, .integer n => .ok { c with RateLimit := n }
  | .Blocklist, .strings xs => .ok { c with Blocklist := xs }
  | .Whitelist, .strings xs => .ok { c with Whitelist := xs }
  | _, _ => .error "type mismatch"

/-- Storing the pairs of a document into the target, one after the other.  Unknown keys
are skipped, a key that is missing leaves its field as it is, and at the first error the
target keeps what has been stored so far.  The pairs are taken in the order of the
document, one of the orders in which the library may visit them. -/
def unify : List (String × Value) → config → config × Option String
  | [], c => (c, none)
  | (k, v) :: rest, c =>
    match findField k with
    | none => unify rest c
    | some f =>
      match assign f v c with
      | .error e => (c, some e)
      | .ok c' => unify rest c'

/-- Modelled from the spec: the function `toml.Decode` of the TOML library is outside the
sources; this is its behaviour on the fragment above.  Nothing is stored unless the whole
text parses; then the pairs are stored into the target. -/
def Decode (data : String) (v : config) : config × Option String :=
  match parse data with
  | .error e => (v, some e)
  | .ok kvs => unify kvs v

end Toml

/-- Modelled from the spec: the decoder of the TOML fragment, as the decoder handed to
the loader. -/
def toml : Decoder := ⟨Toml.Decode⟩

/-- The configuration the default template stands for, for a given version. -/
def defaults (V : String) : config where
  Version := V
  Sources := [
    "http://mirror1.malwaredomains.com/files/justdomains",
    "https://raw.githubusercontent.com/StevenBlack/hosts/master/hosts",
    "http://sysctl.org/cameleon/hosts",
    "https://zeustracker.abuse.ch/blocklist.php?download=domainblocklist",
    "https://s3.amazonaws.com/lists.disconnect.me/simple_tracking.txt",
    "https://s3.amazonaws.com/lists.disconnect.me/simple_ad.txt",
    "http://hosts-file.net/ad_servers.txt",
    "https://raw.githubusercontent.com/quidsup/notrack/master/trackers.txt"]
  SourceDirs := ["sources"]
  RootServers := [
    "198.41.0.4:53", "192.228.79.201:53", "192.33.4.12:53", "199.7.91.13:53",
    "192.203.230.10:53", "192.5.5.241:53", "192.112.36.4:53", "128.63.2.53:53",
    "192.36.148.17:53", "192.58.128.30:53", "193.0.14.129:53", "199.7.83.42:53",
    "202.12.27.33:53"]
  RootKeys := [
    ".\t\t\t172800\tIN\tDNSKEY\t257 3 8 AwEAAagAIKlVZrpC6Ia7gEzahOR+9W29euxhJhVVLOyQbSEW0O8gcCjFFVQUTf6v58fLjwBd0YI0EzrAcQqBGCzh/RStIoO8g0NfnfL2MTJRkxoXbfDaUeVPQuYEhg37NZWAJQ9VnMVDxP/VHL496M/QZxkjf5/Efucp2gaDX6RS6CXpoY68LsvPVjR0ZSwzz1apAzvN9dlzEheX7ICJBBtuA6G3LQpzW5hOA2hzCTMjJPJ8LbqF6dsV6DoBQzgul0sGIcGOYl7OyQdXfZ57relSQageu+ipAdTTJ25AsRTAoub8ONGcLmqrAmRLKBP1dfwhYB4N7knNnulqQxA+Uk1ihz0=",
    ".\t\t\t172800\tIN\tDNSKEY\t256 3 8 AwEAAdp440E6Mz7c+Vl4sPd0lTv2Qnc85dTW64j0RDD7sS/zwxWDJ3QRES2VKDO0OXLMqVJSs2YCCSDKuZXpDPuf++YfAu0j7lzYYdWTGwyNZhEaXtMQJIKYB96pW6cRkiG2Dn8S2vvo/PxW9PKQsyLbtd8PcwWglHgReBVp7kEv/Dd+3b3YMukt4jnWgDUddAySg558Zld+c9eGWkgWoOiuhg4rQRkFstMX1pRyOSHcZuH38o1WcsT4y3eT0U/SR6TOSLIB/8Ftirux/h297oS7tCcwSPt0wwry5OFNTlfMo8v7WGurogfk8hPipf7TTKHIi20LWen5RCsvYsQBkYGpF78="]
  Log := ""
  LogLevel := "info"
  Bind := "0.0.0.0:53"
  API := "127.0.0.1:8080"
  Nullroute := "0.0.0.0"
  Nullroutev6 := "0:0:0:0:0:0:0:0"
  OutboundIP := ""
  Interval := 200
  Timeout := 5
  ConnectTimeout := 2
  Expire := 600
  Maxcount := 0
  Maxdepth := 30
  RateLimit := 0
  Blocklist := []
  Whitelist := ["getsentry.com", "www.getsentry.com"]

namespace Toml

/-- Lexing a piece of text that is followed by more: the mode reached and the pairs
completed on the way. -/
def lexPrefix : Mode → List Char → Except String (Mode × List (String × Value))
  | m, [] => .ok (m, [])
  | m, c :: cs =>
    match step m c with
    | .error e => .error e
    | .ok (m', out) =>
      match lexPrefix m' cs with
      | .error e => .error e
      | .ok (m'', out') => .ok (m'', out ++ out')

/-- A character that stands for itself in a basic string: printable, and neither the
quote nor the backslash. -/
def plainChar (c : Char) : Bool :=
  c ≠ '"' && c ≠ '\\' && 0x20 ≤ c.toNat && c.toNat ≠ 0x7f

end Toml

/-! ## The text of the template -/

/-- The template up to the place of the version. -/
def templateHead : String := "# version this config was generated from\nversion = \""

/-- The template after the `%s` of the version. -/
def templateTail : String := ⟨defaultConfig.data.drop (templateHead.length + 2)⟩

/-- The template after the line of the version. -/
def templateRest : List Char := templateTail.data.drop 2

/-- The key/value pairs of the template after the version, in the order of the text. -/
def templatePairs : List (String × Toml.Value) := [
  ("sources", .strings (defaults "").Sources),
  ("sourcedirs", .strings (defaults "").SourceDirs),
  ("loglevel", .string (defaults "").LogLevel),
  ("bind", .string (defaults "").Bind),
  ("rootservers", .strings (defaults "").RootServers),
  ("rootkeys", .strings (defaults "").RootKeys),
  ("api", .string (defaults "").API),
  ("nullroute", .string (defaults "").Nullroute),
  ("nullroutev6", .string (defaults "").Nullroutev6),
  ("interval", .integer (defaults "").Interval),
  ("timeout", .integer (defaults "").Timeout),
  ("connecttimeout", .integer (defaults "").ConnectTimeout),
  ("expire", .integer (defaults "").Expire),
  ("maxcount", .integer (defaults "").Maxcount),
  ("maxdepth", .integer (defaults "").Maxdepth),
  ("ratelimit", .integer (defaults "").RateLimit),
  ("blocklist", .strings (defaults "").Blocklist),
  ("whitelist", .strings (defaults "").Whitelist)]

/-- The lines of a text: the pieces between line feeds. -/
def splitLines : List Char → List (List Char)
  | [] => [[]]
  | c :: cs =>
    match splitLines cs with
    | [] => [[c]]
    | l :: ls => if c = '\n' then [] :: l :: ls else (c :: l) :: ls

/-- The lines of a text, as strings. -/
def linesOf (s : String) : List String := (splitLines s.data).map String.mk

/-- The lines of the items of an array written one item per line: each item quoted after
the indentation, and a comma after every item but the last. -/
def itemLines (indent : String) : List String → List String
  | [] => []
  | [x] => [indent ++ "\"" ++ x ++ "\""]
  | x :: y :: rest => (indent ++ "\"" ++ x ++ "\",") :: itemLines indent (y :: rest)

/-- The lines of an array assignment written one item per line. -/
def arrayBlock (name indent : String) (items : List String) : List String :=
  (name ++ " = [") :: itemLines indent items ++ ["]"]

/-- The documented scalar defaults, as lines of the configuration file. -/
def documentedLines : List String := [
  "loglevel = \"info\"",
  "bind = \"0.0.0.0:53\"",
  "api = \"127.0.0.1:8080\"",
  "nullroute = \"0.0.0.0\"",
  "nullroutev6 = \"0:0:0:0:0:0:0:0\"",
  "interval = 200",
  "timeout = 5",
  "connecttimeout = 2",
  "expire = 600",
  "maxcount = 0",
  "maxdepth = 30",
  "ratelimit = 0",
  "blocklist = []"]

/-- The hosts of the thirteen root servers. -/
def rootHosts : List String := [
  "198.41.0.4", "192.228.79.201", "192.33.4.12", "199.7.91.13", "192.203.230.10",
  "192.5.5.241", "192.112.36.4", "128.63.2.53", "192.36.148.17", "192.58.128.30",
  "193.0.14.129", "199.7.83.42", "202.12.27.33"]

/-- The text of a DNSKEY record of the root zone with the given flags and key. -/
def dnskeyRecord (flags key : String) : String :=
  ".\t\t\t172800\tIN\tDNSKEY\t" ++ flags ++ " 3 8 " ++ key

/-! ## Sample states -/

/-- A file system holding one file. -/
def oneFile (path content : String) : Files :=
  fun q => if q = path then some content else none

/-- A file system without files. -/
def noFiles : Files := fun _ => none

/-- A fresh process: the given files, the zero `Config`, nothing logged. -/
def fresh (files : Files) : State := ⟨files, config.zero, []⟩

/-- An environment in which creating the file at the given path is refused. -/
def Env.createDenied (path : String) : Env :=
  { Env.sound with
    createFault := fun q => if q = path then some ("open " ++ path ++ ": permission denied") else none }

/-- An environment in which writing at the given path stops after `n` characters. -/
def Env.diskFull (path : String) (n : Nat) : Env :=
  { Env.sound with
    writeFault := fun q =>
      if q = path then some (n, "write " ++ path ++ ": no space left on device") else none }

/-- An environment in which `stat` at the given path is refused. -/
def Env.statDenied (path : String) : Env :=
  { Env.sound with
    statFault := fun q => if q = path then some ("stat " ++ path ++ ": permission denied") else none }

/-- The template after the line of the version, as a string. -/
def templateBody : String := ⟨templateRest⟩

/-- The path used in the sample states. -/
def samplePath : String := "sdns.toml"

/-- A sample file without a version key. -/
def fileNoVersion : Files := oneFile samplePath "loglevel = \"debug\"\n"

/-- A sample file of an older version. -/
def fileOld : Files := oneFile samplePath "version = \"old\"\nloglevel = \"debug\"\n"

/-- A sample file of the shipped version. -/
def fileCurrent : Files := oneFile samplePath "version = \"2.0.4\"\n"

/-- A sample file with an empty version. -/
def fileEmptyVersion : Files := oneFile samplePath "version = \"\"\n"

/-- A sample file whose second key has a value of the wrong type. -/
def fileBadType : Files := oneFile samplePath "version = \"x\"\ninterval = \"soon\"\n"

/-- A sample file that does not parse: the string of its first line is never closed. -/
def fileMalformed : Files := oneFile samplePath "version = \"2.0.4\nloglevel = \"info\"\n"

/-- A sample file whose version line has a double quote inside the quotes. -/
def fileQuoted : Files := oneFile samplePath "version = \"a\"b\"\n"

/-- A sample file holding only the key of an older version. -/
def fileOldOnly : Files := oneFile samplePath "version = \"1.0\"\n"

/-- A process whose `Config` was populated before: the given files, a `Config` with the
log level "debug" and an interval of 7, nothing logged. -/
def populated (files : Files) : State :=
  ⟨files, { config.zero with LogLevel := "debug", Interval := 7 }, []⟩

/-! ## Formatting lemmas -/

theorem sprintfAux_append (pre rest : List Char) (args : List String)
    (h : '%' ∉ pre) :
    sprintfAux false (pre ++ rest) args = pre ++ sprintfAux false rest args := by
  induction pre with
  | nil => rfl
  | cons c cs ih =>
    have hc : c ≠ '%' := fun e => h (by simp [e])
    have hcs : '%' ∉ cs := fun e => h (by simp [e])
    simp [sprintfAux, hc, ih hcs]

theorem sprintfAux_plain (text : List Char) (h : '%' ∉ text) :
    sprintfAux false text [] = text := by
  have := sprintfAux_append text [] [] h
  simpa [sprintfAux, printExtra] using this

theorem sprintfAux_verb (rest : List Char) (a : String) :
    sprintfAux false ('%' :: 's' :: rest) [a] = a.data ++ sprintfAux false rest [] := by
  simp [sprintfAux, printVerb]

theorem Sprintf_one (pre post : String) (format a : String)
    (hf : format.data = pre.data ++ '%' :: 's' :: post.data)
    (hpre : '%' ∉ pre.data) (hpost : '%' ∉ post.data) :
    Sprintf format [a] = pre ++ a ++ post := by
  apply String.ext
  simp [Sprintf, hf, sprintfAux_append _ _ _ hpre, sprintfAux_verb, sprintfAux_plain _ hpost]

theorem Errorf_generate (e : String) :
    Errorf "could not generate config: %s" [e] = "could not generate config: " ++ e := by
  have h := Sprintf_one "could not generate config: " "" "could not generate config: %s" e
    (by decide) (by decide) (by decide)
  simpa [Errorf] using h

theorem Errorf_copy (e : String) :
    Errorf "could not copy default config: %s" [e] = "could not copy default config: " ++ e := by
  have h := Sprintf_one "could not copy default config: " "" "could not copy default config: %s" e
    (by decide) (by decide) (by decide)
  simpa [Errorf] using h

theorem Errorf_load (e : String) :
    Errorf "could not load config: %s" [e] = "could not load config: " ++ e := by
  have h := Sprintf_one "could not load config: " "" "could not load config: %s" e
    (by decide) (by decide) (by decide)
  simpa [Errorf] using h

theorem defaultConfig_split :
    defaultConfig.data = templateHead.data ++ '%' :: 's' :: templateTail.data := by decide!

theorem render_eq (V : String) :
    Sprintf defaultConfig [V] = templateHead ++ V ++ templateTail :=
  Sprintf_one templateHead templateTail defaultConfig V defaultConfig_split
    (by decide!) (by decide!)

theorem templateTail_data : templateTail.data = '"' :: '\n' :: templateRest := by decide!

/-! ## Lemmas on the decoder -/

namespace Toml

theorem parseFrom_append (xs ys : List Char) (m : Mode) :
    parseFrom m (xs ++ ys) =
      match lexPrefix m xs with
      | .error e => .error e
      | .ok (m', out) =>
        match parseFrom m' ys with
        | .error e => .error e
        | .ok kvs => .ok (out ++ kvs) := by
  induction xs generalizing m with
  | nil => simp only [List.nil_append, lexPrefix]; cases parseFrom m ys <;> rfl
  | cons c cs ih =>
    rw [List.cons_append, parseFrom, lexPrefix]
    cases hs : step m c with
    | error e => rfl
    | ok r =>
      obtain ⟨m', out⟩ := r
      simp only [ih]
      cases lexPrefix m' cs with
      | error e => rfl
      | ok r2 =>
        obtain ⟨m'', out'⟩ := r2
        simp only
        cases parseFrom m'' ys <;> simp

theorem plainChar_spec {c : Char} (h : plainChar c = true) :
    c ≠ '"' ∧ c ≠ '\\' ∧ isNL c = false ∧ isControl c = false := by
  simp only [plainChar, Bool.and_eq_true, decide_eq_true_eq] at h
  obtain ⟨⟨⟨h1, h2⟩, h3⟩, h4⟩ := h
  simp at h1 h2
  refine ⟨h1, h2, ?_, ?_⟩
  · simp only [isNL, Bool.or_eq_false_iff, decide_eq_false_iff_not]
    constructor <;> (intro e; subst e; revert h3; decide)
  · simp only [isControl, Bool.or_eq_false_iff, Bool.and_eq_false_iff, decide_eq_false_iff_not]
    exact ⟨Or.inl (by omega), h4⟩

theorem strStep_plain (k : String) (arr : Option (List String)) (acc : List Char) {c : Char}
    (h : plainChar c = true) : strStep k arr acc c = .ok (.str k arr (c :: acc), []) := by
  obtain ⟨h1, h2, h3, h4⟩ := plainChar_spec h
  simp [strStep, h1, h2, h3, h4]

theorem parseFrom_str_plain (k : String) (arr : Option (List String)) (V rest : List Char) :
    ∀ acc : List Char, (∀ c ∈ V, plainChar c = true) →
      parseFrom (.str k arr acc) (V ++ rest) = parseFrom (.str k arr (V.reverse ++ acc)) rest := by
  induction V with
  | nil => intro acc _; rfl
  | cons c cs ih =>
    intro acc h
    have hc : plainChar c = true := h c (by simp)
    have hcs : ∀ x ∈ cs, plainChar x = true := fun x hx => h x (by simp [hx])
    rw [List.cons_append, parseFrom]
    simp only [step, strStep_plain k arr acc hc, ih (c :: acc) hcs, List.reverse_cons,
      List.append_assoc, List.singleton_append]
    generalize parseFrom (Mode.str k arr (cs.reverse ++ c :: acc)) rest = r
    cases r <;> simp

theorem parseFrom_version (k : String) (V rest : List Char) (h : ∀ c ∈ V, plainChar c = true) :
    parseFrom (.strOpen k none) (V ++ '"' :: '\n' :: rest) =
      match parseFrom .top rest with
      | .error e => .error e
      | .ok kvs => .ok ((k, .string ⟨V⟩) :: kvs) := by
  cases V with
  | nil =>
    simp only [List.nil_append, parseFrom, step, if_true, afterValueStep]
    simp [isWhitespace, isNL]
    cases parseFrom Mode.top rest <;> rfl
  | cons c cs =>
    have hc : plainChar c = true := h c (by simp)
    have hcs : ∀ x ∈ cs, plainChar x = true := fun x hx => h x (by simp [hx])
    have hq : c ≠ '"' := (plainChar_spec hc).1
    rw [List.cons_append, parseFrom]
    simp only [step, hq, if_false, strStep_plain k none [] hc,
      parseFrom_str_plain k none cs _ [c] hcs]
    simp only [parseFrom, step, strStep, if_true, closeStr, afterValueStep]
    simp [isWhitespace, isNL]
    cases parseFrom Mode.top rest <;> rfl

theorem parseFrom_version_eof (k : String) (V : List Char)
    (h : ∀ c ∈ V, plainChar c = true) :
    parseFrom (.strOpen k none) (V ++ ['"']) = .ok [(k, .string ⟨V⟩)] := by
  cases V with
  | nil =>
    simp only [List.nil_append, parseFrom, step, if_true, atEOF]
  | cons c cs =>
    have hc : plainChar c = true := h c (by simp)
    have hcs : ∀ x ∈ cs, plainChar x = true := fun x hx => h x (by simp [hx])
    have hq : c ≠ '"' := (plainChar_spec hc).1
    rw [List.cons_append, parseFrom]
    simp only [step, hq, if_false, strStep_plain k none [] hc,
      parseFrom_str_plain k none cs _ [c] hcs]
    simp only [parseFrom, step, strStep, if_true, closeStr, atEOF]
    simp

theorem Decode_parse_error (data e : String) (v : config) (h : parse data = .error e) :
    Decode data v = (v, some e) := by
  simp only [Decode, h]

theorem assign_frame_version (f : Field) (val : Value) (c : config) (v : String)
    (hf : f ≠ .Version) :
    assign f val { c with Version := v } =
      match assign f val c with
      | .error e => .error e
      | .ok c' => .ok { c' with Version := v } := by
  cases f <;> cases val <;>
    first
    | exact absurd rfl hf
    | rfl
    | (simp only [assign]; split <;> rfl)

theorem unify_frame_version (kvs : List (String × Value)) (v : String)
    (h : ∀ kv ∈ kvs, findField kv.1 ≠ some .Version) :
    ∀ c : config, unify kvs { c with Version := v } =
      ({ (unify kvs c).1 with Version := v }, (unify kvs c).2) := by
  induction kvs with
  | nil => intro c; rfl
  | cons kv rest ih =>
    intro c
    obtain ⟨k, val⟩ := kv
    have hk : findField k ≠ some .Version := h (k, val) (by simp)
    have hrest : ∀ kv ∈ rest, findField kv.1 ≠ some .Version := fun x hx => h x (by simp [hx])
    simp only [unify]
    cases hf : findField k with
    | none => exact ih hrest c
    | some f =>
      have hne : f ≠ .Version := fun e => hk (by rw [hf, e])
      simp only [assign_frame_version f val c v hne]
      cases assign f val c with
      | error e => rfl
      | ok c' => exact ih hrest c'

end Toml

theorem lexPrefix_version_key :
    Toml.lexPrefix .top "version = \"".data = .ok (.strOpen "version" none, []) := by decide

theorem Decode_version_only (X nl : String) (c : config)
    (hX : ∀ x ∈ X.data, Toml.plainChar x = true) (hnl : nl = "" ∨ nl = "\n") :
    Toml.Decode ("version = \"" ++ X ++ "\"" ++ nl) c = ({ c with Version := X }, none) := by
  have hf : Toml.findField "version" = some .Version := by decide
  have hp : Toml.parseFrom .top ("version = \"" ++ X ++ "\"" ++ nl).data =
      .ok [("version", .string X)] := by
    rcases hnl with h | h
    · subst h
      have hd : ("version = \"" ++ X ++ "\"" ++ "").data =
          "version = \"".data ++ (X.data ++ ['"']) := by
        simp [String.data_append]
      rw [hd, Toml.parseFrom_append, lexPrefix_version_key]
      simp only [Toml.parseFrom_version_eof "version" X.data hX, List.nil_append]
    · subst h
      have hd : ("version = \"" ++ X ++ "\"" ++ "\n").data =
          "version = \"".data ++ (X.data ++ '"' :: '\n' :: []) := by
        simp [String.data_append]
      rw [hd, Toml.parseFrom_append, lexPrefix_version_key]
      simp only [Toml.parseFrom_version "version" X.data [] hX, Toml.parseFrom, Toml.atEOF,
        List.nil_append]
  have hd : Toml.firstDuplicate ["version"] = none := by decide
  unfold Toml.Decode Toml.parse
  rw [hp]
  simp only [List.map_cons, List.map_nil, hd]
  rw [Toml.unify, hf]
  rfl

theorem lexPrefix_head :
    Toml.lexPrefix .top templateHead.data = .ok (.strOpen "version" none, []) := by decide!

theorem parseFrom_rest : Toml.parseFrom .top templateRest = .ok templatePairs := by decide!

theorem parse_render (V : String) (hV : ∀ c ∈ V.data, Toml.plainChar c = true) :
    Toml.parse (Sprintf defaultConfig [V]) = .ok (("version", .string V) :: templatePairs) := by
  have hp : Toml.parseFrom .top (Sprintf defaultConfig [V]).data =
      .ok (("version", .string V) :: templatePairs) := by
    rw [render_eq]
    simp only [String.data_append, List.append_assoc, templateTail_data]
    rw [Toml.parseFrom_append, lexPrefix_head]
    simp only [Toml.parseFrom_version "version" V.data templateRest hV, parseFrom_rest,
      List.nil_append]
  have hd : Toml.firstDuplicate ("version" :: templatePairs.map Prod.fst) = none := by decide!
  simp only [Toml.parse, hp, List.map_cons, hd]

theorem unify_templatePairs :
    Toml.unify templatePairs config.zero = (defaults "", none) := by decide!

theorem templatePairs_no_version :
    ∀ kv ∈ templatePairs, Toml.findField kv.1 ≠ some .Version := by decide!

theorem decode_render (V : String) (hV : ∀ c ∈ V.data, Toml.plainChar c = true) :
    Toml.Decode (Sprintf defaultConfig [V]) config.zero = (defaults V, none) := by
  have hf : Toml.findField "version" = some .Version := by decide
  calc Toml.Decode (Sprintf defaultConfig [V]) config.zero
      = Toml.unify (("version", .string V) :: templatePairs) config.zero := by
        unfold Toml.Decode
        rw [parse_render V hV]
    _ = Toml.unify templatePairs { config.zero with Version := V } := by
        rw [Toml.unify, hf]
        rfl
    _ = ({ (Toml.unify templatePairs config.zero).1 with Version := V },
          (Toml.unify templatePairs config.zero).2) :=
        Toml.unify_frame_version templatePairs V templatePairs_no_version config.zero
    _ = (defaults V, none) := by rw [unify_templatePairs]; rfl

/-! ## Lemmas on the loader -/

theorem ensureExists_of_exists (env : Env) (V path : String) (s : State)
    (h : IsNotExist (Stat env s.files path) = false) : ensureExists env V path s = (none, s) := by
  simp [ensureExists, h]

theorem ensureExists_config (env : Env) (V path : String) (s s1 : State) (err : Option String)
    (h : ensureExists env V path s = (err, s1)) : s1.Config = s.Config := by
  unfold ensureExists at h
  split at h
  · unfold generateConfig at h
    split at h
    · cases h; rfl
    · simp only at h
      split at h
      · cases h; rfl
      · split at h <;> (cases h; rfl)
  · cases h; rfl

theorem LoadConfig_decode_error (d : Decoder) (env : Env) (V path : String) (s s1 : State)
    (c : config) (e : String) (hgen : ensureExists env V path s = (none, s1))
    (hdec : DecodeFile d env s1.files path s1.Config = (c, some e)) :
    LoadConfig d env V path s = (some ("could not load config: " ++ e), { s1 with Config := c }) := by
  simp only [LoadConfig, hgen, hdec, Errorf_load]

theorem LoadConfig_decode_ok (d : Decoder) (env : Env) (V path : String) (s s1 : State)
    (c : config) (hgen : ensureExists env V path s = (none, s1))
    (hdec : DecodeFile d env s1.files path s1.Config = (c, none)) :
    LoadConfig d env V path s =
      if c.Version ≠ V then
        (none, { s1 with
          Config := if c.Version = "" then { c with Version := "none" } else c
          log := s1.log ++ [outOfDate] })
      else (none, { s1 with Config := c }) := by
  simp only [LoadConfig, hgen, hdec]
  by_cases hv : c.Version = V
  · simp [hv]
  · by_cases he : c.Version = "" <;> simp [hv, he]

theorem splitLines_append_tail (xs ys : List Char) :
    (splitLines ys).tail <:+ (splitLines (xs ++ ys)).tail := by
  induction xs with
  | nil => exact List.suffix_refl _
  | cons c cs ih =>
    rw [List.cons_append, splitLines]
    cases hl : splitLines (cs ++ ys) with
    | nil => rw [hl] at ih; simpa using ih
    | cons l ls =>
      rw [hl] at ih
      by_cases hc : c = '\n'
      · simp only [hc, if_true, List.tail_cons] at ih ⊢
        exact ih.trans (List.suffix_cons l ls)
      · simpa [hc] using ih

theorem linesOf_render_suffix (V : String) :
    (linesOf templateTail).tail <:+ linesOf (Sprintf defaultConfig [V]) := by
  rw [render_eq]
  have h := splitLines_append_tail (templateHead ++ V).data templateTail.data
  have h2 := (h.map String.mk).trans
    (List.IsSuffix.map String.mk (List.tail_suffix (splitLines ((templateHead ++ V).data ++ templateTail.data))))
  simpa [linesOf, List.map_tail] using h2

theorem generateConfig_ok (env : Env) (V path : String) (s : State)
    (hcreate : env.createFault path = none) (hwrite : env.writeFault path = none) :
    ∃ lg, generateConfig env V path s =
      (none, { s with
        files := (s.files.write path "").write path (Sprintf defaultConfig [V])
        log := lg }) := by
  cases habs : env.abs path with
  | none => exact ⟨s.log, by simp [generateConfig, Create, Copy, hcreate, hwrite, habs]⟩
  | some a =>
    exact ⟨s.log ++ [.Info "Default config file generated" [("config", a)]],
      by simp [generateConfig, Create, Copy, hcreate, hwrite, habs]⟩

theorem LoadConfig_files (d : Decoder) (env : Env) (V path : String) (s s1 : State)
    (hgen : ensureExists env V path s = (none, s1)) :
    (LoadConfig d env V path s).2.files = s1.files := by
  rcases hdec : DecodeFile d env s1.files path s1.Config with ⟨c, _ | e⟩
  · rw [LoadConfig_decode_ok d env V path s s1 c hgen hdec]
    split <;> rfl
  · rw [LoadConfig_decode_error d env V path s s1 c e hgen hdec]

/-! ## The claims -/

/-- C1, amended: a version mismatch is never a failure.  Whenever the file is there (or
has just been generated) and the decoder accepts it, `LoadConfig` returns nil whether or
not the decoded `Version` equals the expected one, and the published `Config` holds the
decoded fields, except that an empty decoded `Version` is published as "none" when the
expected version is not empty. -/
theorem LoadConfig_mismatch_not_fatal (d : Decoder) (env : Env) (V path : String)
    (s s1 : State) (c : config)
    (hgen : ensureExists env V path s = (none, s1))
    (hdec : DecodeFile d env s1.files path s1.Config = (c, none)) :
    (LoadConfig d env V path s).1 = none ∧
    (LoadConfig d env V path s).2.Config =
      { c with Version := if c.Version = "" ∧ V ≠ "" then "none" else c.Version } := by
  rw [LoadConfig_decode_ok d env V path s s1 c hgen hdec]
  by_cases hv : c.Version = V
  · have hcond : ¬ (c.Version = "" ∧ V ≠ "") := fun h => h.2 (hv ▸ h.1)
    rw [if_neg (not_not.mpr hv), if_neg hcond]
    exact ⟨rfl, rfl⟩
  · by_cases he : c.Version = ""
    · have hV : V ≠ "" := fun h => hv (he.trans h.symm)
      rw [if_pos hv, if_pos he, if_pos ⟨he, hV⟩]
      exact ⟨rfl, rfl⟩
    · rw [if_pos hv, if_neg he, if_neg (fun h => he h.1)]
      exact ⟨rfl, rfl⟩

/-- C1, witness: a file of version "old" loaded by a binary expecting "2.0.4". -/
theorem LoadConfig_mismatch_not_fatal_witness :
    ensureExists Env.sound "2.0.4" samplePath (fresh fileOld) = (none, fresh fileOld) ∧
    DecodeFile toml Env.sound fileOld samplePath config.zero =
      ({ config.zero with Version := "old", LogLevel := "debug" }, none) ∧
    (LoadConfig toml Env.sound "2.0.4" samplePath (fresh fileOld)).1 = none ∧
    (LoadConfig toml Env.sound "2.0.4" samplePath (fresh fileOld)).2.Config =
      { config.zero with Version := "old", LogLevel := "debug" } :=
  ⟨rfl, by decide!,
    LoadConfig_mismatch_not_fatal toml Env.sound "2.0.4" samplePath (fresh fileOld)
      (fresh fileOld) { config.zero with Version := "old", LogLevel := "debug" } rfl
      (by decide!)⟩

/-- C1, counterexample: a file without a version key decodes (with an empty `Version`),
`LoadConfig` returns nil, and the published `Config` is not the decoded structure: its
`Version` is "none". -/
theorem LoadConfig_publishes_none :
    DecodeFile toml Env.sound fileNoVersion samplePath config.zero =
      ({ config.zero with LogLevel := "debug" }, none) ∧
    (LoadConfig toml Env.sound "2.0.4" samplePath (fresh fileNoVersion)).1 = none ∧
    (LoadConfig toml Env.sound "2.0.4" samplePath (fresh fileNoVersion)).2.Config ≠
      { config.zero with LogLevel := "debug" } ∧
    (LoadConfig toml Env.sound "2.0.4" samplePath (fresh fileNoVersion)).2.Config.Version =
      "none" := by decide!

/-- C2, amended: a decode failure is fatal.  Whenever the file is there (or has just been
generated) and the decoder rejects it, `LoadConfig` returns the decoder's error behind
the prefix "could not load config: " and stores nothing itself: `Config` is what the
decoder left in its target.  When the file cannot be read, and when its content is
syntactically invalid (it does not parse), the whole state, `Config` included, is what it
was after the existence check, so `Config` is exactly what it was before the call. -/
theorem LoadConfig_decode_failure (d : Decoder) (env : Env) (V path : String)
    (s s1 : State) (hgen : ensureExists env V path s = (none, s1)) :
    (∀ c e, DecodeFile d env s1.files path s1.Config = (c, some e) →
      LoadConfig d env V path s =
        (some ("could not load config: " ++ e), { s1 with Config := c })) ∧
    (∀ e, ReadFile env s1.files path = .error e →
      LoadConfig d env V path s = (some ("could not load config: " ++ e), s1) ∧
      (LoadConfig d env V path s).2.Config = s.Config) ∧
    (∀ data e, ReadFile env s1.files path = .ok data → Toml.parse data = .error e →
      LoadConfig toml env V path s = (some ("could not load config: " ++ e), s1) ∧
      (LoadConfig toml env V path s).2.Config = s.Config) := by
  have hcfg := ensureExists_config env V path s s1 none hgen
  refine ⟨fun c e hdec => LoadConfig_decode_error d env V path s s1 c e hgen hdec, ?_, ?_⟩
  · intro e hread
    have hdec : DecodeFile d env s1.files path s1.Config = (s1.Config, some e) := by
      simp only [DecodeFile, hread]
    have h := LoadConfig_decode_error d env V path s s1 s1.Config e hgen hdec
    exact ⟨h, by rw [h]; exact hcfg⟩
  · intro data e hread hparse
    have hdec : DecodeFile toml env s1.files path s1.Config = (s1.Config, some e) := by
      simp only [DecodeFile, hread, toml, Toml.Decode_parse_error data e s1.Config hparse]
    have h := LoadConfig_decode_error toml env V path s s1 s1.Config e hgen hdec
    exact ⟨h, by rw [h]; exact hcfg⟩

/-- C2, witness: a file whose first string is never closed, loaded by a process whose
`Config` was populated before: the content does not parse and `Config` is untouched. -/
theorem LoadConfig_decode_failure_witness :
    ensureExists Env.sound "2.0.4" samplePath (populated fileMalformed) =
      (none, populated fileMalformed) ∧
    Toml.parse "version = \"2.0.4\nloglevel = \"info\"\n" =
      .error "strings cannot contain newlines" ∧
    (LoadConfig toml Env.sound "2.0.4" samplePath (populated fileMalformed)).1 =
      some ("could not load config: " ++ "strings cannot contain newlines") ∧
    (LoadConfig toml Env.sound "2.0.4" samplePath (populated fileMalformed)).2.Config =
      { config.zero with LogLevel := "debug", Interval := 7 } :=
  ⟨rfl, by decide!,
    congrArg Prod.fst ((LoadConfig_decode_failure toml Env.sound "2.0.4" samplePath
      (populated fileMalformed) (populated fileMalformed) rfl).2.2
      "version = \"2.0.4\nloglevel = \"info\"\n" "strings cannot contain newlines"
      rfl (by decide!)).1,
    ((LoadConfig_decode_failure toml Env.sound "2.0.4" samplePath
      (populated fileMalformed) (populated fileMalformed) rfl).2.2
      "version = \"2.0.4\nloglevel = \"info\"\n" "strings cannot contain newlines"
      rfl (by decide!)).2⟩

/-- C2, counterexample: a file that parses, but whose second key holds a string where an
integer is expected.  The decoder stores the first key and fails at the second (taking the
keys in the order of the file, one of the orders the library may take); `LoadConfig` fails
and `Config` is no longer what it was before the call (the zero value): its `Version` is
"x". -/
theorem LoadConfig_failure_keeps_stored_fields :
    Toml.parse "version = \"x\"\ninterval = \"soon\"\n" =
      .ok [("version", .string "x"), ("interval", .string "soon")] ∧
    (fresh fileBadType).Config = config.zero ∧
    (LoadConfig toml Env.sound "2.0.4" samplePath (fresh fileBadType)).1 ≠ none ∧
    (LoadConfig toml Env.sound "2.0.4" samplePath (fresh fileBadType)).2.Config ≠ config.zero ∧
    (LoadConfig toml Env.sound "2.0.4" samplePath (fresh fileBadType)).2.Config.Version = "x" := by
  decide!

/-- C3: generation on absence.  When no file exists at the path and creating and writing
succeed, after `LoadConfig` the file at that path holds the default template rendered
for the expected version, the other paths are as before, and the content starts with the
comment line followed by the line `version = "V"`. -/
theorem LoadConfig_generates_default (d : Decoder) (env : Env) (V path : String) (s : State)
    (hfile : s.files path = none) (hstat : env.statFault path = none)
    (hcreate : env.createFault path = none) (hwrite : env.writeFault path = none) :
    (LoadConfig d env V path s).2.files path = some (Sprintf defaultConfig [V]) ∧
    (∀ q, q ≠ path → (LoadConfig d env V path s).2.files q = s.files q) ∧
    ∃ rest, Sprintf defaultConfig [V] =
      "# version this config was generated from\n" ++ ("version = \"" ++ V ++ "\"\n") ++ rest := by
  obtain ⟨lg, hg⟩ := generateConfig_ok env V path s hcreate hwrite
  have hgen : ensureExists env V path s = (none, { s with
      files := (s.files.write path "").write path (Sprintf defaultConfig [V])
      log := lg }) := by
    simp [ensureExists, Stat, hstat, hfile, IsNotExist, hg]
  rw [LoadConfig_files d env V path s _ hgen]
  refine ⟨by simp [Files.write], fun q hq => by simp [Files.write, hq], templateBody, ?_⟩
  rw [render_eq]
  apply String.ext
  simp [templateHead, templateBody, templateTail_data]

/-- C3, witness: loading from an empty file system. -/
theorem LoadConfig_generates_default_witness :
    (fresh noFiles).files samplePath = none ∧
    (LoadConfig toml Env.sound "2.0.4" samplePath (fresh noFiles)).2.files samplePath =
      some (Sprintf defaultConfig ["2.0.4"]) :=
  ⟨rfl, (LoadConfig_generates_default toml Env.sound "2.0.4" samplePath (fresh noFiles)
    rfl rfl rfl rfl).1⟩

/-- C4, amended: round trip of the default template.  For every version string made of
printable characters other than the double quote and the backslash, decoding the text
rendered from `defaultConfig` into a zero `config` succeeds and gives the version and the
documented defaults (8 sources, 13 root servers, 2 root keys among them). -/
theorem Decode_default_roundtrip (V : String) (hV : ∀ c ∈ V.data, Toml.plainChar c = true) :
    Toml.Decode (Sprintf defaultConfig [V]) config.zero = (defaults V, none) ∧
    (defaults V).Version = V ∧ (defaults V).Sources.length = 8 ∧
    (defaults V).RootServers.length = 13 ∧ (defaults V).RootKeys.length = 2 :=
  ⟨decode_render V hV, rfl, by simp [defaults], by simp [defaults], by simp [defaults]⟩

/-- C4, witness: the shipped version. -/
theorem Decode_default_roundtrip_witness :
    (∀ c ∈ "2.0.4".data, Toml.plainChar c = true) ∧
    Toml.Decode (Sprintf defaultConfig ["2.0.4"]) config.zero = (defaults "2.0.4", none) :=
  ⟨by decide, (Decode_default_roundtrip "2.0.4" (by decide)).1⟩

/-- C4, counterexample: a version string with a double quote.  For `x" #` the rendered
text decodes without error, but to the version `x`; for `a"b` it does not decode. -/
theorem Decode_default_quote_in_version :
    Toml.Decode (Sprintf defaultConfig ["x\" #"]) config.zero = (defaults "x", none) ∧
    (defaults "x").Version ≠ "x\" #" ∧
    (Toml.Decode (Sprintf defaultConfig ["a\"b"]) config.zero).2 ≠ none := by decide!

/-- C5, amended: missing-field defaulting.  For every string X of printable characters
other than the double quote and the backslash, `LoadConfig` on an existing, readable file
whose text is the single line `version = "X"` (with or without a line break at its end)
returns nil; the published `Version` is X, except that it is "none" when X is empty and
the expected version is not; every other field keeps the value it had before the call,
which is the zero value when `Config` was not populated before; the warning is logged
exactly when X differs from the expected version. -/
theorem LoadConfig_version_only (env : Env) (V path : String) (s : State) (X nl : String)
    (hX : ∀ x ∈ X.data, Toml.plainChar x = true) (hnl : nl = "" ∨ nl = "\n")
    (hfile : s.files path = some ("version = \"" ++ X ++ "\"" ++ nl))
    (hstat : env.statFault path = none) (hread : env.readFault path = none) :
    LoadConfig toml env V path s =
      (none, { s with
        Config := { s.Config with Version := if X = "" ∧ V ≠ "" then "none" else X }
        log := s.log ++ (if X = V then [] else [outOfDate]) }) ∧
    (s.Config = config.zero → (LoadConfig toml env V path s).2.Config =
      { config.zero with Version := if X = "" ∧ V ≠ "" then "none" else X }) := by
  have hgen : ensureExists env V path s = (none, s) :=
    ensureExists_of_exists env V path s (by simp [Stat, hstat, hfile, IsNotExist])
  have hd : DecodeFile toml env s.files path s.Config = ({ s.Config with Version := X }, none) := by
    simp only [DecodeFile, ReadFile, hread, hfile, toml, Decode_version_only X nl s.Config hX hnl]
  have hmain : LoadConfig toml env V path s =
      (none, { s with
        Config := { s.Config with Version := if X = "" ∧ V ≠ "" then "none" else X }
        log := s.log ++ (if X = V then [] else [outOfDate]) }) := by
    rw [LoadConfig_decode_ok toml env V path s s _ hgen hd]
    by_cases hv : X = V
    · have hcond : ¬ (X = "" ∧ V ≠ "") := fun h => h.2 (hv ▸ h.1)
      rw [if_neg (not_not.mpr hv), if_neg hcond, if_pos hv, List.append_nil]
    · by_cases he : X = ""
      · have hV : V ≠ "" := fun h => hv (he.trans h.symm)
        rw [if_pos hv, if_pos he, if_pos ⟨he, hV⟩, if_neg hv]
      · rw [if_pos hv, if_neg he, if_neg (fun h => he h.1), if_neg hv]
  refine ⟨hmain, fun hz => ?_⟩
  rw [hmain, hz]

/-- C5, witness: a file holding only `version = "1.0"`, loaded by a process whose `Config`
was populated before and that expects "2.0.4": the version is stored, the log level and
the interval are kept. -/
theorem LoadConfig_version_only_witness :
    (∀ x ∈ "1.0".data, Toml.plainChar x = true) ∧
    (populated fileOldOnly).files samplePath = some ("version = \"" ++ "1.0" ++ "\"" ++ "\n") ∧
    (LoadConfig toml Env.sound "2.0.4" samplePath (populated fileOldOnly)).1 = none ∧
    (LoadConfig toml Env.sound "2.0.4" samplePath (populated fileOldOnly)).2.Config =
      { config.zero with Version := "1.0", LogLevel := "debug", Interval := 7 } :=
  ⟨by decide, by decide,
    congrArg Prod.fst (LoadConfig_version_only Env.sound "2.0.4" samplePath
      (populated fileOldOnly) "1.0" "\n" (by decide) (Or.inr rfl) (by decide) rfl rfl).1,
    congrArg (fun r => r.2.Config) (LoadConfig_version_only Env.sound "2.0.4" samplePath
      (populated fileOldOnly) "1.0" "\n" (by decide) (Or.inr rfl) (by decide) rfl rfl).1⟩

/-- C5, counterexample: a file holding only `version = ""` is published with the version
"none", not the empty string; a field whose key is missing from the file keeps the value
`Config` held before the call (here a log level "debug"), not the zero value; and for the
string `a"b` the file `version = "a"b"` does not decode, so `LoadConfig` fails. -/
theorem LoadConfig_version_only_fails :
    (LoadConfig toml Env.sound "2.0.4" samplePath (fresh fileEmptyVersion)).1 = none ∧
    (LoadConfig toml Env.sound "2.0.4" samplePath (fresh fileEmptyVersion)).2.Config.Version =
      "none" ∧
    (LoadConfig toml Env.sound "2.0.4" samplePath (populated fileCurrent)).1 = none ∧
    (LoadConfig toml Env.sound "2.0.4" samplePath (populated fileCurrent)).2.Config.LogLevel =
      "debug" ∧
    (LoadConfig toml Env.sound "2.0.4" samplePath (fresh fileQuoted)).1 ≠ none := by decide!

/-- C6: `LoadConfig` writes to the file system only when the existence check reports
not-exists.  When the file exists, or `os.Stat` fails with another error, the files are
left as they are, nothing is generated or logged as generated, and the outcome is that of
decoding the path as it is. -/
theorem LoadConfig_leaves_existing_file (d : Decoder) (env : Env) (V path : String)
    (s : State) (h : Stat env s.files path ≠ .errNotExist) :
    (LoadConfig d env V path s).2.files = s.files ∧
    ensureExists env V path s = (none, s) ∧
    (∀ c e, DecodeFile d env s.files path s.Config = (c, some e) →
      LoadConfig d env V path s =
        (some ("could not load config: " ++ e), { s with Config := c })) ∧
    (∀ c, DecodeFile d env s.files path s.Config = (c, none) →
      (LoadConfig d env V path s).1 = none ∧
      (LoadConfig d env V path s).2.log =
        s.log ++ (if c.Version = V then [] else [outOfDate])) := by
  have hne : IsNotExist (Stat env s.files path) = false := by
    cases hs : Stat env s.files path with
    | errNotExist => exact absurd hs h
    | ok => rfl
    | errOther m => rfl
  have hgen : ensureExists env V path s = (none, s) := ensureExists_of_exists env V path s hne
  refine ⟨LoadConfig_files d env V path s s hgen, hgen, ?_, ?_⟩
  · intro c e hdec
    exact LoadConfig_decode_error d env V path s s c e hgen hdec
  · intro c hdec
    rw [LoadConfig_decode_ok d env V path s s c hgen hdec]
    by_cases hv : c.Version = V
    · rw [if_neg (not_not.mpr hv), if_pos hv, List.append_nil]
      exact ⟨rfl, rfl⟩
    · rw [if_pos hv, if_neg hv]
      by_cases he : c.Version = ""
      · rw [if_pos he]; exact ⟨rfl, rfl⟩
      · rw [if_neg he]; exact ⟨rfl, rfl⟩

/-- C6, witness: an out-of-date file is left as it is, and when `stat` is refused nothing
is generated although no file is there. -/
theorem LoadConfig_leaves_existing_file_witness :
    Stat Env.sound (fresh fileOld).files samplePath ≠ .errNotExist ∧
    (LoadConfig toml Env.sound "2.0.4" samplePath (fresh fileOld)).2.files =
      (fresh fileOld).files ∧
    Stat (Env.statDenied samplePath) (fresh noFiles).files samplePath ≠ .errNotExist ∧
    (LoadConfig toml (Env.statDenied samplePath) "2.0.4" samplePath (fresh noFiles)).2.files =
      (fresh noFiles).files :=
  ⟨by decide,
    (LoadConfig_leaves_existing_file toml Env.sound "2.0.4" samplePath
      (fresh fileOld) (by decide)).1,
    by decide,
    (LoadConfig_leaves_existing_file toml (Env.statDenied samplePath) "2.0.4" samplePath
      (fresh noFiles) (by decide)).1⟩

/-- C7, amended: for every expected version other than the empty string, a successfully
decoded file whose `Version` is empty takes the mismatch path: `LoadConfig` returns nil,
the out-of-date warning is logged and the published `Config.Version` is "none". -/
theorem LoadConfig_empty_version_is_none (d : Decoder) (env : Env) (V path : String)
    (s s1 : State) (c : config) (hV : V ≠ "")
    (hgen : ensureExists env V path s = (none, s1))
    (hdec : DecodeFile d env s1.files path s1.Config = (c, none))
    (hempty : c.Version = "") :
    (LoadConfig d env V path s).1 = none ∧
    (LoadConfig d env V path s).2.log = s1.log ++ [outOfDate] ∧
    (LoadConfig d env V path s).2.Config.Version = "none" := by
  have hv : c.Version ≠ V := fun h => hV (h.symm.trans hempty)
  rw [LoadConfig_decode_ok d env V path s s1 c hgen hdec, if_pos hv, if_pos hempty]
  exact ⟨rfl, rfl, rfl⟩

/-- C7, witness: a file without a version key, loaded by a binary expecting "2.0.4". -/
theorem LoadConfig_empty_version_is_none_witness :
    "2.0.4" ≠ "" ∧
    DecodeFile toml Env.sound fileNoVersion samplePath config.zero =
      ({ config.zero with LogLevel := "debug" }, none) ∧
    (LoadConfig toml Env.sound "2.0.4" samplePath (fresh fileNoVersion)).2.log = [outOfDate] ∧
    (LoadConfig toml Env.sound "2.0.4" samplePath (fresh fileNoVersion)).2.Config.Version =
      "none" :=
  ⟨by decide, by decide!,
    (LoadConfig_empty_version_is_none toml Env.sound "2.0.4" samplePath (fresh fileNoVersion)
      (fresh fileNoVersion) { config.zero with LogLevel := "debug" } (by decide) rfl
      (by decide!) rfl).2⟩

/-- C7, counterexample: when the expected version is itself the empty string, a decoded
empty `Version` is equal to it: no warning is logged and the published version stays
empty. -/
theorem LoadConfig_empty_expected_version :
    (DecodeFile toml Env.sound fileNoVersion samplePath config.zero).1.Version = "" ∧
    (LoadConfig toml Env.sound "" samplePath (fresh fileNoVersion)).1 = none ∧
    (LoadConfig toml Env.sound "" samplePath (fresh fileNoVersion)).2.log = [] ∧
    (LoadConfig toml Env.sound "" samplePath (fresh fileNoVersion)).2.Config.Version = "" ∧
    (LoadConfig toml Env.sound "" samplePath (fresh fileNoVersion)).2.Config.Version ≠
      "none" := by decide!

/-- C8: a generation failure aborts the load.  When no file exists at the path and
`os.Create` fails, `LoadConfig` returns that error behind "could not generate config: "
and the state is what it was; when the copy of the template fails, it returns that error
behind "could not copy default config: " and only the file written so far differs.  In
both cases `Config` and the log are unchanged and the outcome does not depend on the
decoder, which is not called. -/
theorem LoadConfig_generation_failure (d : Decoder) (env : Env) (V path : String) (s : State)
    (hne : IsNotExist (Stat env s.files path) = true) :
    (∀ e, env.createFault path = some e →
      LoadConfig d env V path s = (some ("could not generate config: " ++ e), s)) ∧
    (∀ n e, env.createFault path = none → env.writeFault path = some (n, e) →
      LoadConfig d env V path s =
        (some ("could not copy default config: " ++ e),
          { s with files :=
            (s.files.write path "").write path ⟨(Sprintf defaultConfig [V]).data.take n⟩ })) := by
  constructor
  · intro e he
    simp [LoadConfig, ensureExists, hne, generateConfig, Create, he, Errorf_generate]
  · intro n e hc hw
    simp [LoadConfig, ensureExists, hne, generateConfig, Create, Copy, hc, hw, Errorf_copy]

/-- C8, witness: creation refused, and a disk that fills up after ten characters. -/
theorem LoadConfig_generation_failure_witness :
    IsNotExist (Stat (Env.createDenied samplePath) (fresh noFiles).files samplePath) = true ∧
    LoadConfig toml (Env.createDenied samplePath) "2.0.4" samplePath (fresh noFiles) =
      (some ("could not generate config: " ++ "open sdns.toml: permission denied"),
        fresh noFiles) ∧
    (LoadConfig toml (Env.diskFull samplePath 10) "2.0.4" samplePath (fresh noFiles)).2.Config =
      config.zero :=
  ⟨rfl,
    (LoadConfig_generation_failure toml (Env.createDenied samplePath) "2.0.4" samplePath
      (fresh noFiles) rfl).1 "open sdns.toml: permission denied" rfl,
    congrArg (fun r => r.2.Config)
      ((LoadConfig_generation_failure toml (Env.diskFull samplePath 10) "2.0.4" samplePath
        (fresh noFiles) rfl).2 10 "write sdns.toml: no space left on device" rfl rfl)⟩

/-- C10: the warning is logged exactly on a version mismatch.  After a successful decode
`LoadConfig` returns nil; the out-of-date warning is appended to the log if and only if
the decoded `Version` differs from the expected one; and when they are equal the state is
the state after the existence check with the decoded structure as `Config`, nothing
logged. -/
theorem LoadConfig_warns_iff_mismatch (d : Decoder) (env : Env) (V path : String)
    (s s1 : State) (c : config)
    (hgen : ensureExists env V path s = (none, s1))
    (hdec : DecodeFile d env s1.files path s1.Config = (c, none)) :
    (LoadConfig d env V path s).1 = none ∧
    ((LoadConfig d env V path s).2.log = s1.log ++ [outOfDate] ↔ c.Version ≠ V) ∧
    (c.Version = V → LoadConfig d env V path s = (none, { s1 with Config := c })) := by
  rw [LoadConfig_decode_ok d env V path s s1 c hgen hdec]
  by_cases hv : c.Version = V
  · rw [if_neg (not_not.mpr hv)]
    refine ⟨rfl, ⟨fun h => ?_, fun h => absurd hv h⟩, fun _ => rfl⟩
    have hlen := congrArg List.length h
    simp at hlen
  · rw [if_pos hv]
    exact ⟨rfl, ⟨fun _ => hv, fun _ => rfl⟩, fun h => absurd h hv⟩

/-- C10, witness: a file of the expected version is published as decoded, without a
warning. -/
theorem LoadConfig_warns_iff_mismatch_witness :
    DecodeFile toml Env.sound fileCurrent samplePath config.zero =
      ({ config.zero with Version := "2.0.4" }, none) ∧
    LoadConfig toml Env.sound "2.0.4" samplePath (fresh fileCurrent) =
      (none, { fresh fileCurrent with Config := { config.zero with Version := "2.0.4" } }) :=
  ⟨by decide!,
    (LoadConfig_warns_iff_mismatch toml Env.sound "2.0.4" samplePath (fresh fileCurrent)
      (fresh fileCurrent) { config.zero with Version := "2.0.4" } rfl (by decide!)).2.2 rfl⟩

theorem documentedLines_in_tail : ∀ l ∈ documentedLines, l ∈ (linesOf templateTail).tail := by
  decide!

theorem rootservers_in_tail :
    arrayBlock "rootservers" "\t" (rootHosts.map (· ++ ":53")) <:+: (linesOf templateTail).tail := by
  decide!

theorem rootkeys_in_tail :
    arrayBlock "rootkeys" "\t" (defaults "").RootKeys <:+: (linesOf templateTail).tail := by
  decide!

theorem sourcedirs_in_tail :
    arrayBlock "sourcedirs" "" ["sources"] <:+: (linesOf templateTail).tail := by
  decide!

theorem whitelist_in_tail :
    arrayBlock "whitelist" "\t" ["getsentry.com", "www.getsentry.com"] <:+:
      (linesOf templateTail).tail := by
  decide!

theorem rootKeys_are_dnskeys :
    (defaults "").RootKeys =
      [dnskeyRecord "257" ⟨((defaults "").RootKeys.head!).data.drop 29⟩,
        dnskeyRecord "256" ⟨((defaults "").RootKeys.getLast!).data.drop 29⟩] := by
  decide!

/-- C9: the default content is present verbatim for every version.  The rendered text is
the comment line, the line `version = "V"` and a body that does not depend on V; it
contains each documented scalar assignment as a line, the `rootservers` array of exactly
13 entries of the form host:53, the `rootkeys` array of exactly two DNSKEY records, the
`sourcedirs` array holding only "sources", and the `whitelist` array of getsentry.com and
www.getsentry.com. -/
theorem defaultConfig_content (V : String) :
    Sprintf defaultConfig [V] =
      "# version this config was generated from\n" ++ ("version = \"" ++ V ++ "\"\n") ++
        templateBody ∧
    (∀ l ∈ documentedLines, l ∈ linesOf (Sprintf defaultConfig [V])) ∧
    (arrayBlock "rootservers" "\t" (rootHosts.map (· ++ ":53")) <:+:
      linesOf (Sprintf defaultConfig [V]) ∧ rootHosts.length = 13) ∧
    (∃ k1 k2, arrayBlock "rootkeys" "\t" [dnskeyRecord "257" k1, dnskeyRecord "256" k2] <:+:
      linesOf (Sprintf defaultConfig [V])) ∧
    arrayBlock "sourcedirs" "" ["sources"] <:+: linesOf (Sprintf defaultConfig [V]) ∧
    arrayBlock "whitelist" "\t" ["getsentry.com", "www.getsentry.com"] <:+:
      linesOf (Sprintf defaultConfig [V]) := by
  have hsuf := linesOf_render_suffix V
  refine ⟨?_, fun l hl => hsuf.subset (documentedLines_in_tail l hl),
    ⟨rootservers_in_tail.trans hsuf.isInfix, rfl⟩,
    ⟨⟨((defaults "").RootKeys.head!).data.drop 29⟩,
      ⟨((defaults "").RootKeys.getLast!).data.drop 29⟩, ?_⟩,
    sourcedirs_in_tail.trans hsuf.isInfix, whitelist_in_tail.trans hsuf.isInfix⟩
  · rw [render_eq]
    apply String.ext
    simp [templateHead, templateBody, templateTail_data]
  · rw [← rootKeys_are_dnskeys]
    exact rootkeys_in_tail.trans hsuf.isInfix

end Sdns
